import Mathlib

/-!
Verification of the OpenThread neighbor-table / thread-netif core
(`src/core/thread/neighbor_table.cpp`, `src/core/thread/thread_netif.cpp`)
against its natural-language specification.

The C++ sources are shallowly embedded: pure functions become Lean
functions, the interface lifecycle becomes explicit state passing with an
event trace, and the externally-owned collaborators (child table, router
table, MLE parent slots, address classification, network-data route
computation) become explicit parameters, exactly as the spec's design
notes prescribe (dependency injection instead of instance-locator access).
-/

set_option autoImplicit false

namespace OpenThread

/-! ## Shared value types -/

/-- Embeds `otError` values used by this core (`OT_ERROR_NONE`, `OT_ERROR_NO_ROUTE`,
`OT_ERROR_NOT_TMF`, `OT_ERROR_NOT_FOUND`, plus representatives for other
failure codes an external collaborator may return). -/
inductive OtError where
  | kNone
  | kNoRoute
  | kNotTmf
  | kNotFound
  | kDrop
  | kParse
  deriving DecidableEq, Repr

/-- Neighbor lifecycle states (`Neighbor::State`).  The spec collapses these
into the two coarse predicates `IsStateValid` and `IsStateValidOrRestoring`. -/
inductive NeighborState where
  | invalid
  | restored
  | parentResponse
  | childIdRequest
  | linkRequest
  | valid
  deriving DecidableEq, Repr

/-- Embeds `Neighbor::IsStateValid()`. -/
def NeighborState.isValid (s : NeighborState) : Bool :=
  s = NeighborState.valid

/-- Embeds `Neighbor::IsStateRestoring()`. -/
def NeighborState.isRestoring (s : NeighborState) : Bool :=
  s = NeighborState.restored

/-- Embeds `Neighbor::IsStateValidOrRestoring()`. -/
def NeighborState.isValidOrRestoring (s : NeighborState) : Bool :=
  s.isValid || s.isRestoring

/-- Embeds `Mac::kShortAddrBroadcast` (0xffff). -/
def kShortAddrBroadcast : Nat := 0xffff

/-- Embeds `Mac::kShortAddrInvalid` (0xfffe). -/
def kShortAddrInvalid : Nat := 0xfffe

/-- Embeds `Mle::kMaxRouterId` (62): router ids range over `0 .. 62`. -/
def kMaxRouterId : Nat := 62

/-- A generic `Mac::Address`: unspecified (`IsNone`), a 16-bit short
address, or a 64-bit extended address (both modelled as `Nat`). -/
inductive MacAddress where
  | noAddr
  | short (a : Nat)
  | ext (a : Nat)
  deriving DecidableEq, Repr

/-- Embeds `Mac::Address::IsNone()`. -/
def MacAddress.isNone (m : MacAddress) : Bool :=
  match m with
  | .noAddr => true
  | _ => false

/-! ## TMF filter (`ThreadNetif::TmfFilter`, `ThreadNetif::IsTmfMessage`)

The IPv6 address classifiers (`Mle::IsMeshLocalAddress`,
`Ip6::Address::IsLinkLocal`, `IsLinkLocalMulticast`,
`IsRealmLocalMulticast`) are external collaborators; per message-info
address they are a fixed classification, modelled as boolean fields. -/

/-- Classification of one IPv6 address of a message envelope relative to
the device (the filter consults only these predicates). -/
structure AddrClass where
  /-- Embeds `Mle::IsMeshLocalAddress`: the address lies under the mesh-local prefix. -/
  isMeshLocal : Bool
  /-- Embeds `Ip6::Address::IsLinkLocal`: link-local unicast (fe80::/10). -/
  isLinkLocal : Bool
  /-- Embeds `Ip6::Address::IsLinkLocalMulticast`. -/
  isLinkLocalMulticast : Bool
  /-- Embeds `Ip6::Address::IsRealmLocalMulticast`. -/
  isRealmLocalMulticast : Bool
  deriving DecidableEq, Repr

/-- The part of `Ip6::MessageInfo` the TMF filter inspects: classification
of the destination (`GetSockAddr`) and the source (`GetPeerAddr`). -/
structure MessageInfo where
  sockAddr : AddrClass
  peerAddr : AddrClass
  deriving DecidableEq, Repr

/-- Embeds `ThreadNetif::IsTmfMessage` (thread_netif.cpp lines 197-214): the
security predicate gating inbound TMF messages. -/
def IsTmfMessage (mi : MessageInfo) : Bool :=
  ((mi.sockAddr.isMeshLocal || mi.sockAddr.isLinkLocalMulticast ||
      mi.sockAddr.isRealmLocalMulticast) &&
    mi.peerAddr.isMeshLocal) ||
  ((mi.sockAddr.isLinkLocal || mi.sockAddr.isLinkLocalMulticast) &&
    mi.peerAddr.isLinkLocal)

/-- Message content (a CoAP message body, opaque to this core). -/
def CoapMessage : Type := List Nat

/-- Embeds `ThreadNetif::TmfFilter` (thread_netif.cpp lines 190-195): the message
argument is explicitly unused in the source (`OT_UNUSED_VARIABLE`). -/
def TmfFilter (aMessage : CoapMessage) (aMessageInfo : MessageInfo) : OtError :=
  if IsTmfMessage aMessageInfo then OtError.kNone else OtError.kNotTmf

/-- The allow condition exactly as the claim states it: (a) destination
mesh-local unicast, link-local multicast or realm-local multicast with a
mesh-local source, or (b) destination AND source both link-local unicast.
Written from the spec's words, for comparison with `IsTmfMessage`. -/
def specTmfAllow (mi : MessageInfo) : Bool :=
  ((mi.sockAddr.isMeshLocal || mi.sockAddr.isLinkLocalMulticast ||
      mi.sockAddr.isRealmLocalMulticast) &&
    mi.peerAddr.isMeshLocal) ||
  (mi.sockAddr.isLinkLocal && mi.peerAddr.isLinkLocal)

/-- The amended allow condition: clause (b) widened so that the destination
may be link-local unicast or link-local multicast (the source must still be
link-local unicast).  Written from the amended claim's words. -/
def specTmfAllowAmended (mi : MessageInfo) : Bool :=
  ((mi.sockAddr.isMeshLocal || mi.sockAddr.isLinkLocalMulticast ||
      mi.sockAddr.isRealmLocalMulticast) &&
    mi.peerAddr.isMeshLocal) ||
  ((mi.sockAddr.isLinkLocal || mi.sockAddr.isLinkLocalMulticast) &&
    mi.peerAddr.isLinkLocal)

/-! ## Route lookup (`ThreadNetif::RouteLookup`) -/

/-- Result of the external network-data route computation
(`NetworkData::Leader::RouteLookup`): an error code, and on success the
prefix-match length and the next-hop RLOC16 it wrote through its out
parameters. -/
structure LeaderRouteResult where
  error : OtError
  matchLength : Nat
  rloc16 : Nat
  deriving DecidableEq, Repr

/-- Embeds `ThreadNetif::RouteLookup` (thread_netif.cpp lines 174-188): delegate
to the leader network-data computation; on success, if the resolved
next-hop RLOC16 equals this device's own RLOC16
(`Mle::MleRouter::GetRloc16`), override the result to `OT_ERROR_NO_ROUTE`. -/
def RouteLookup (leaderResult : LeaderRouteResult) (myRloc16 : Nat) : OtError :=
  if leaderResult.error = OtError.kNone then
    if leaderResult.rloc16 = myRloc16 then OtError.kNoRoute else OtError.kNone
  else
    leaderResult.error

/-! ## Interface lifecycle (`ThreadNetif::Up`, `ThreadNetif::Down`)

The dependent subsystems are external collaborators; each start/stop call,
address change, and notifier signal is recorded as an event in a trace so
that "performs no subsystem start/stop, no address changes, signals no
event" is expressible.  Optional (conditionally compiled) subsystems are
controlled by a build configuration record. -/

/-- Build configuration for the conditionally compiled subsystems that
`Up`/`Down` touch. -/
structure NetifConfig where
  channelMonitor : Bool
  dnsClient : Bool
  sntpClient : Bool
  dtls : Bool
  deriving DecidableEq, Repr

/-- Observable actions performed by `Up`/`Down` on collaborators and on the
interface's own address state. -/
inductive NetifEvent where
  | macSetEnabled (enabled : Bool)
  | channelMonitorStart
  | meshForwarderStart
  | markUp
  | subscribeAllNodesMulticast
  | mleEnable
  | coapStart (port : Nat)
  | dnsClientStart
  | sntpClientStart
  | signalNetifStateChanged
  | dnsClientStop
  | sntpClientStop
  | coapSecureStop
  | coapStop
  | mleDisable
  | removeAllExternalUnicastAddresses
  | unsubscribeAllExternalMulticastAddresses
  | unsubscribeAllRoutersMulticast
  | unsubscribeAllNodesMulticast
  | markDown
  | meshForwarderStop
  | channelMonitorStop
  deriving DecidableEq, Repr

/-- The kCoapUdpPort constant (the Thread management port). -/
def kCoapUdpPort : Nat := 61631

/-- The interface state this core owns: the `mIsUp` flag. -/
structure ThreadNetifState where
  mIsUp : Bool
  deriving DecidableEq, Repr

/-- The constructor-initialized state (`mIsUp(false)`). -/
def initialNetifState : ThreadNetifState := { mIsUp := false }

/-- Embeds `ThreadNetif::Up` (thread_netif.cpp lines 115-141): guarded by
`VerifyOrExit(!mIsUp)`; otherwise performs the start sequence (with
`mIsUp = true` set after the forwarder start and before the multicast
subscription) and signals the state-changed event. -/
def netifUp (cfg : NetifConfig) (s : ThreadNetifState) :
    ThreadNetifState × List NetifEvent :=
  if s.mIsUp then
    (s, [])
  else
    ({ mIsUp := true },
      [NetifEvent.macSetEnabled true] ++
      (if cfg.channelMonitor then [NetifEvent.channelMonitorStart] else []) ++
      [NetifEvent.meshForwarderStart,
       NetifEvent.markUp,
       NetifEvent.subscribeAllNodesMulticast,
       NetifEvent.mleEnable,
       NetifEvent.coapStart kCoapUdpPort] ++
      (if cfg.dnsClient then [NetifEvent.dnsClientStart] else []) ++
      (if cfg.sntpClient then [NetifEvent.sntpClientStart] else []) ++
      [NetifEvent.signalNetifStateChanged])

/-- Embeds `ThreadNetif::Down` (thread_netif.cpp lines 143-172): guarded by
`VerifyOrExit(mIsUp)`; otherwise performs the inverse stop sequence (with
`mIsUp = false` set after the multicast unsubscriptions and before the
forwarder stop) and signals the state-changed event. -/
def netifDown (cfg : NetifConfig) (s : ThreadNetifState) :
    ThreadNetifState × List NetifEvent :=
  if s.mIsUp then
    ({ mIsUp := false },
      (if cfg.dnsClient then [NetifEvent.dnsClientStop] else []) ++
      (if cfg.sntpClient then [NetifEvent.sntpClientStop] else []) ++
      (if cfg.dtls then [NetifEvent.coapSecureStop] else []) ++
      [NetifEvent.coapStop,
       NetifEvent.mleDisable,
       NetifEvent.removeAllExternalUnicastAddresses,
       NetifEvent.unsubscribeAllExternalMulticastAddresses,
       NetifEvent.unsubscribeAllRoutersMulticast,
       NetifEvent.unsubscribeAllNodesMulticast,
       NetifEvent.markDown,
       NetifEvent.meshForwarderStop] ++
      (if cfg.channelMonitor then [NetifEvent.channelMonitorStop] else []) ++
      [NetifEvent.signalNetifStateChanged])
  else
    (s, [])

/-! ## Neighbor table data model (`neighbor_table.cpp`)

`neighbor.hpp` (the `Neighbor`, `AddressMatcher` and `Neighbor::Info`
declarations) and the child/router table stores are collaborators outside
the provided sources; they are modelled from the spec (§3, §6): a peer
carries an extended address, an optional assigned short address (RLOC16)
and a lifecycle state; an `AddressMatcher` is a transient comparison key
(short address and/or extended address, plus a required-state predicate)
that matches a peer when the state predicate holds and every present
address component equals the peer's; the child table is a bounded store
indexed by slot, the router table is indexed by router id. -/

/-- Shared fields of a peer (`Neighbor`). -/
structure Neighbor where
  state : NeighborState
  rloc16 : Nat
  extAddress : Nat
  deriving DecidableEq, Repr

/-- The IPv6-address representation used for the neighbor-table claims.
The classification predicates (`IsLinkLocal`, `Mle::IsRoutingLocator`) are
external collaborators, modelled as fields; `iidExtAddress` is the MAC
extended address derived from the interface identifier
(`InterfaceIdentifier::ConvertToMacAddress`), and `iidLocator` its low 16
bits (`InterfaceIdentifier::GetLocator`). -/
structure Ip6Addr where
  isLinkLocal : Bool
  /-- Embeds `Mle::IsRoutingLocator`: mesh-local prefix and RLOC-form interface
  identifier. -/
  isRoutingLocator : Bool
  iidExtAddress : Nat
  iidLocator : Nat
  /-- Disambiguates distinct addresses with equal classification (the full
  128-bit value, for registered-address comparison). -/
  addrBits : Nat
  deriving DecidableEq, Repr

/-- A child table entry (`Child`): the shared peer fields plus the
registered IPv6 addresses used for full-address resolution. -/
structure Child where
  toNeighbor : Neighbor
  ip6Addrs : List Ip6Addr
  deriving DecidableEq, Repr

/-- Embeds `Child::HasIp6Address`. -/
def Child.hasIp6Address (c : Child) (a : Ip6Addr) : Bool :=
  c.ip6Addrs.contains a

/-- A router table entry (`Router`): only the shared peer fields matter
here. -/
abbrev Router : Type := Neighbor

/-- The two coarse required-state predicates (`Neighbor::StateFilter`). -/
inductive StateFilter where
  | kInStateValid
  | kInStateValidOrRestoring
  deriving DecidableEq, Repr

/-- Embeds `Neighbor::MatchesFilter`. -/
def matchesFilter (s : NeighborState) (f : StateFilter) : Bool :=
  match f with
  | .kInStateValid => s.isValid
  | .kInStateValidOrRestoring => s.isValidOrRestoring

/-- Modelled from the spec: `Neighbor::AddressMatcher` (neighbor.hpp is
not among the provided sources) — a transient comparison key holding an
optional short-address component, an optional extended-address component
and a required-state predicate. -/
structure AddressMatcher where
  shortAddr : Option Nat
  extAddr : Option Nat
  stateFilter : StateFilter
  deriving DecidableEq, Repr

/-- Modelled from the spec: `Neighbor::Matches` — the state predicate must
hold and every address component present in the matcher must equal the
peer's corresponding address. -/
def Neighbor.matches (n : Neighbor) (m : AddressMatcher) : Bool :=
  matchesFilter n.state m.stateFilter &&
  (match m.shortAddr with
   | some s => n.rloc16 == s
   | none => true) &&
  (match m.extAddr with
   | some e => n.extAddress == e
   | none => true)

/-- Embeds `AddressMatcher` built from a short address. -/
def matcherOfShort (a : Nat) (f : StateFilter) : AddressMatcher :=
  { shortAddr := some a, extAddr := none, stateFilter := f }

/-- Embeds `AddressMatcher` built from an extended address. -/
def matcherOfExt (a : Nat) (f : StateFilter) : AddressMatcher :=
  { shortAddr := none, extAddr := some a, stateFilter := f }

/-- Embeds `AddressMatcher` built from a generic `Mac::Address`. -/
def matcherOfMac (a : MacAddress) (f : StateFilter) : AddressMatcher :=
  match a with
  | .noAddr => { shortAddr := none, extAddr := none, stateFilter := f }
  | .short s => matcherOfShort s f
  | .ext e => matcherOfExt e f

/-- Current MLE device role (`Mle::DeviceRole`). -/
inductive DeviceRole where
  | disabled
  | detached
  | child
  | router
  | leader
  deriving DecidableEq, Repr

/-- Embeds `Mle::IsRouterOrLeader`. -/
def DeviceRole.isRouterOrLeader (r : DeviceRole) : Bool :=
  match r with
  | .router | .leader => true
  | _ => false

/-- The externally-owned state a `NeighborTable` resolution reads
(dependency-injected per the spec's design notes): the build capability
(`OPENTHREAD_FTD`), the current MLE role, the parent and parent-candidate
slots, the child table (slot-indexed; slots of every state exist up to the
capacity) and the router table (router-id-indexed, `none` for unallocated
ids). -/
structure Device where
  isFtd : Bool
  role : DeviceRole
  parent : Neighbor
  parentCandidate : Neighbor
  childTable : List Child
  routerTable : List (Option Router)
  deriving DecidableEq, Repr

/-- A resolution result, identifying which live peer object the returned
pointer refers to (pointer identity in the source). -/
inductive NeighborRef where
  | parent
  | parentCandidate
  | child (index : Nat)
  | router (id : Nat)
  deriving DecidableEq, Repr

/-- Embeds `NeighborTable::FindParent(const Neighbor::AddressMatcher &)`
(neighbor_table.cpp lines 47-62): check the parent slot, then the
parent-candidate slot. -/
def FindParentMatcher (d : Device) (aMatcher : AddressMatcher) :
    Option NeighborRef :=
  if d.parent.matches aMatcher then
    some NeighborRef.parent
  else if d.parentCandidate.matches aMatcher then
    some NeighborRef.parentCandidate
  else
    none

/-- Embeds `ChildTable::FindChild(matcher)`: first matching child in slot order. -/
def findChildIdx (cs : List Child) (m : AddressMatcher) : Option Nat :=
  cs.findIdx? (fun c => c.toNeighbor.matches m)

/-- Embeds `RouterTable::FindRouter(matcher)`: first allocated matching router in
id order. -/
def findRouterId (rt : List (Option Router)) (m : AddressMatcher) : Option Nat :=
  rt.findIdx? (fun o =>
    match o with
    | some r => Neighbor.matches r m
    | none => false)

/-- Embeds `NeighborTable::FindChildOrRouter` (neighbor_table.cpp lines 121-133):
search the child table, then the router table. -/
def FindChildOrRouter (d : Device) (aMatcher : AddressMatcher) :
    Option NeighborRef :=
  match findChildIdx d.childTable aMatcher with
  | some i => some (NeighborRef.child i)
  | none =>
    match findRouterId d.routerTable aMatcher with
    | some i => some (NeighborRef.router i)
    | none => none

/-- Embeds `NeighborTable::FindNeighbor(const Neighbor::AddressMatcher &)`
(neighbor_table.cpp lines 79-96): under `OPENTHREAD_FTD`, search
child-or-router only when the device currently is router or leader, and
fall through to the parent search when that produced nothing; on a
non-FTD build, search the parent slots only. -/
def FindNeighborMatcher (d : Device) (aMatcher : AddressMatcher) :
    Option NeighborRef :=
  if d.isFtd then
    match (if d.role.isRouterOrLeader then FindChildOrRouter d aMatcher else none) with
    | some n => some n
    | none => FindParentMatcher d aMatcher
  else
    FindParentMatcher d aMatcher

/-- Embeds `NeighborTable::FindNeighbor(Mac::ShortAddress)` (neighbor_table.cpp
lines 98-107): reject the broadcast and invalid sentinel short addresses
before searching. -/
def FindNeighborShort (d : Device) (aShortAddress : Nat) : Option NeighborRef :=
  if aShortAddress ≠ kShortAddrBroadcast ∧ aShortAddress ≠ kShortAddrInvalid then
    FindNeighborMatcher d
      (matcherOfShort aShortAddress StateFilter.kInStateValidOrRestoring)
  else
    none

/-- Embeds `NeighborTable::FindNeighbor(const Mac::ExtAddress &)`
(neighbor_table.cpp lines 109-112). -/
def FindNeighborExt (d : Device) (aExtAddress : Nat) : Option NeighborRef :=
  FindNeighborMatcher d
    (matcherOfExt aExtAddress StateFilter.kInStateValidOrRestoring)

/-- Embeds `NeighborTable::FindNeighbor(const Mac::Address &)` (neighbor_table.cpp
lines 114-117): no sentinel check, straight to the matcher search. -/
def FindNeighborMac (d : Device) (aMacAddress : MacAddress) : Option NeighborRef :=
  FindNeighborMatcher d
    (matcherOfMac aMacAddress StateFilter.kInStateValidOrRestoring)

/-- Embeds `ChildTable::Iterate(Child::kInStateValidOrRestoring)` combined with the
`HasIp6Address` test of the tier-3 scan: index of the first
valid-or-restoring child with the given registered address. -/
def scanChildrenForIp6 (cs : List Child) (a : Ip6Addr) : Option Nat :=
  cs.findIdx? (fun c =>
    c.toNeighbor.state.isValidOrRestoring && c.hasIp6Address a)

/-- Embeds `NeighborTable::FindNeighbor(const Ip6::Address &)` (neighbor_table.cpp
lines 135-166, FTD only): derive a MAC address from a link-local interface
identifier (tier 1) or a routing-locator interface identifier (tier 2);
when one was derived, search child-or-router with it and exit; only when no
MAC address was derivable, scan the valid-or-restoring children's
registered IPv6 addresses (tier 3). -/
def FindNeighborIp6 (d : Device) (aIp6Address : Ip6Addr) : Option NeighborRef :=
  let mac0 : MacAddress := MacAddress.noAddr
  let mac1 : MacAddress :=
    if aIp6Address.isLinkLocal then MacAddress.ext aIp6Address.iidExtAddress
    else mac0
  let mac2 : MacAddress :=
    if aIp6Address.isRoutingLocator then MacAddress.short aIp6Address.iidLocator
    else mac1
  if mac2.isNone then
    (scanChildrenForIp6 d.childTable aIp6Address).map NeighborRef.child
  else
    FindChildOrRouter d (matcherOfMac mac2 StateFilter.kInStateValidOrRestoring)

/-! ## Neighbor enumeration (`NeighborTable::GetNextNeighborInfo`, FTD)

neighbor_table.cpp lines 179-231.  The persisted iterator is a signed
integer (`otNeighborInfoIterator`, initial value
`OT_NEIGHBOR_INFO_ITERATOR_INIT = 0`): non-negative values index the child
table, negative values encode `-(routerId + 1)`.  `ChildTable::
GetChildAtIndex(i)` yields the slot at index `i` or null past the capacity;
`RouterTable::GetRouter(id)` yields the entry allocated for router id `id`
or null. -/

/-- The `Neighbor::Info` snapshot fields the enumeration claims concern
(`SetFrom` plus the `mIsChild` flag). -/
structure NeighborInfo where
  extAddress : Nat
  rloc16 : Nat
  mIsChild : Bool
  deriving DecidableEq, Repr

/-- Embeds `Neighbor::Info::SetFrom(child)` followed by `mIsChild = true`. -/
def infoOfChild (c : Child) : NeighborInfo :=
  { extAddress := c.toNeighbor.extAddress, rloc16 := c.toNeighbor.rloc16,
    mIsChild := true }

/-- Embeds `Neighbor::Info::SetFrom(router)` followed by `mIsChild = false`. -/
def infoOfRouter (r : Router) : NeighborInfo :=
  { extAddress := r.extAddress, rloc16 := r.rloc16, mIsChild := false }

/-- The child-phase loop (lines 188-205): walk the slots from index `i`
(the list argument is the table suffix starting at slot `i`) and return the
first slot index holding a child in state Valid, with the child. -/
def childSearchAux : List Child → Nat → Option (Nat × Child)
  | [], _ => none
  | c :: rest, i =>
    if c.toNeighbor.state.isValid then some (i, c)
    else childSearchAux rest (i + 1)

/-- Embeds `RouterTable::GetRouter(id)`. -/
def getRouter (rt : List (Option Router)) (id : Nat) : Option Router :=
  (rt.get? id).join

/-- The router-phase loop (lines 212-224): walk ids from `i` while
`i ≤ kMaxRouterId` (the fuel argument is `kMaxRouterId + 1 - i`, the number
of remaining iterations) and return the first id holding an allocated
router in state Valid, with the router. -/
def routerSearchAux (rt : List (Option Router)) :
    Nat → Nat → Option (Nat × Router)
  | 0, _ => none
  | fuel + 1, i =>
    match getRouter rt i with
    | some r =>
      if r.state.isValid then some (i, r) else routerSearchAux rt fuel (i + 1)
    | none => routerSearchAux rt fuel (i + 1)

/-- The router-phase loop started at id `start`. -/
def routerSearch (rt : List (Option Router)) (start : Nat) :
    Option (Nat × Router) :=
  routerSearchAux rt (kMaxRouterId + 1 - start) start

/-- Embeds `NeighborTable::GetNextNeighborInfo` (FTD, lines 179-231): one call.
Returns the info snapshot written on success (`none` encodes
`OT_ERROR_NOT_FOUND`) and the updated iterator. -/
def GetNextNeighborInfo (d : Device) (aIterator : Int) :
    Option NeighborInfo × Int :=
  if 0 ≤ aIterator then
    match childSearchAux (d.childTable.drop aIterator.toNat) aIterator.toNat with
    | some (j, c) => (some (infoOfChild c), (j : Int) + 1)
    | none =>
      match routerSearch d.routerTable 0 with
      | some (j, r) => (some (infoOfRouter r), -((j : Int) + 1))
      | none => (none, -((kMaxRouterId : Int) + 1))
  else
    match routerSearch d.routerTable (-aIterator).toNat with
    | some (j, r) => (some (infoOfRouter r), -((j : Int) + 1))
    | none => (none, -(Int.ofNat (max (-aIterator).toNat (kMaxRouterId + 1))))

/-- Info snapshots of the state-Valid children of a table suffix, in slot
order. -/
def validChildInfos (cs : List Child) : List NeighborInfo :=
  (cs.filter (fun c => c.toNeighbor.state.isValid)).map infoOfChild

/-- Info snapshots of the state-Valid allocated routers with id in
`[i, i + fuel)`, in id order (same fuel convention as `routerSearchAux`). -/
def validRouterInfosAux (rt : List (Option Router)) :
    Nat → Nat → List NeighborInfo
  | 0, _ => []
  | fuel + 1, i =>
    match getRouter rt i with
    | some r =>
      if r.state.isValid then infoOfRouter r :: validRouterInfosAux rt fuel (i + 1)
      else validRouterInfosAux rt fuel (i + 1)
    | none => validRouterInfosAux rt fuel (i + 1)

/-- Info snapshots of the state-Valid routers with id in
`[start, kMaxRouterId]`, in id order. -/
def validRouterInfosFrom (rt : List (Option Router)) (start : Nat) :
    List NeighborInfo :=
  validRouterInfosAux rt (kMaxRouterId + 1 - start) start

/-- The snapshots an exhaustive enumeration resumed at iterator value `it`
still has to deliver. -/
def pendingInfos (d : Device) (it : Int) : List NeighborInfo :=
  if 0 ≤ it then
    validChildInfos (d.childTable.drop it.toNat) ++
      validRouterInfosFrom d.routerTable 0
  else
    validRouterInfosFrom d.routerTable (-it).toNat

/-- The outputs of `n` successive `GetNextNeighborInfo` calls starting at
iterator value `it`, threading the iterator from call to call (the caller
never reinitializes it). -/
def enumOutputs (d : Device) : Int → Nat → List (Option NeighborInfo)
  | _, 0 => []
  | it, n + 1 =>
    (GetNextNeighborInfo d it).1 :: enumOutputs d (GetNextNeighborInfo d it).2 n

/-! ## Concrete instances used by counterexamples and witnesses -/

/-- Message-info with a link-local multicast destination and a link-local
unicast source (e.g. destination ff02::1, source fe80::1). -/
def c1MessageInfo : MessageInfo :=
  { sockAddr :=
      { isMeshLocal := false, isLinkLocal := false,
        isLinkLocalMulticast := true, isRealmLocalMulticast := false },
    peerAddr :=
      { isMeshLocal := false, isLinkLocal := true,
        isLinkLocalMulticast := false, isRealmLocalMulticast := false } }

/-- A routing-locator IPv6 address with locator 7. -/
def c2Addr : Ip6Addr :=
  { isLinkLocal := false, isRoutingLocator := true, iidExtAddress := 0,
    iidLocator := 7, addrBits := 99 }

/-- A router/leader-capable device whose only child is Valid with short
address 5 and has `c2Addr` among its registered IPv6 addresses; no
router/child holds short address 7. -/
def c2Device : Device :=
  { isFtd := true, role := DeviceRole.leader,
    parent := { state := NeighborState.invalid, rloc16 := 0, extAddress := 0 },
    parentCandidate := { state := NeighborState.invalid, rloc16 := 0, extAddress := 0 },
    childTable :=
      [{ toNeighbor := { state := NeighborState.valid, rloc16 := 5, extAddress := 21 },
         ip6Addrs := [c2Addr] }],
    routerTable := [] }

/-- An FTD device currently in the child role, with a Valid parent slot and
a Valid child-table entry. -/
def c4Device : Device :=
  { isFtd := true, role := DeviceRole.child,
    parent := { state := NeighborState.valid, rloc16 := 1, extAddress := 10 },
    parentCandidate := { state := NeighborState.invalid, rloc16 := 0, extAddress := 0 },
    childTable :=
      [{ toNeighbor := { state := NeighborState.valid, rloc16 := 2, extAddress := 20 },
         ip6Addrs := [] }],
    routerTable := [] }

/-- A matcher with no address component: it matches every peer in a
valid-or-restoring state. -/
def c4Matcher : AddressMatcher :=
  { shortAddr := none, extAddr := none,
    stateFilter := StateFilter.kInStateValidOrRestoring }

/-- A device whose parent and parent-candidate slots are both in a
valid-or-restoring state (distinct identities). -/
def c9Device : Device :=
  { isFtd := false, role := DeviceRole.child,
    parent := { state := NeighborState.valid, rloc16 := 3, extAddress := 30 },
    parentCandidate := { state := NeighborState.restored, rloc16 := 4, extAddress := 40 },
    childTable := [], routerTable := [] }

/-- A matcher both parent slots of `c9Device` match. -/
def c9Matcher : AddressMatcher :=
  { shortAddr := none, extAddr := none,
    stateFilter := StateFilter.kInStateValidOrRestoring }

/-- A router-role device holding one Valid child whose assigned short
address is the invalid sentinel value (a child that has not yet been
assigned an RLOC16 stores `kShortAddrInvalid`). -/
def c10Device : Device :=
  { isFtd := true, role := DeviceRole.router,
    parent := { state := NeighborState.invalid, rloc16 := 0, extAddress := 0 },
    parentCandidate := { state := NeighborState.invalid, rloc16 := 0, extAddress := 0 },
    childTable :=
      [{ toNeighbor := { state := NeighborState.valid, rloc16 := kShortAddrInvalid, extAddress := 7 },
         ip6Addrs := [] }],
    routerTable := [] }

/-! ## Claim theorems -/

/-- C1 counterexample: on a message whose destination is a link-local
multicast address and whose source is a link-local unicast address (but
not mesh-local), `IsTmfMessage` allows the message, while the claim's
allow condition (clause (b) requiring both destination and source to be
link-local unicast) denies it. -/
theorem tmfFilter_claim_counterexample :
    IsTmfMessage c1MessageInfo = true ∧ specTmfAllow c1MessageInfo = false := by
  decide

/-- C1 (amended): `IsTmfMessage` allows a message if and only if (a) the
destination is mesh-local unicast, link-local multicast or realm-local
multicast and the source is mesh-local unicast, or (b) the source is
link-local unicast and the destination is link-local unicast or link-local
multicast; all other combinations are denied. -/
theorem tmfFilter_allow_iff (mi : MessageInfo) :
    IsTmfMessage mi = specTmfAllowAmended mi := by
  rfl

/-- C2: for every IPv6 address whose interface identifier decodes to a
syntactically valid routing locator, `FindNeighbor(Ip6::Address)` searches
only the child/router tables with the derived short address: its result is
exactly the result of that table search (so it returns none when the search
fails), and the tier-3 scan of registered child addresses is never
reached. -/
theorem findNeighborIp6_tier_skip (d : Device) (a : Ip6Addr)
    (h : a.isRoutingLocator = true) :
    FindNeighborIp6 d a =
      FindChildOrRouter d
        (matcherOfShort a.iidLocator StateFilter.kInStateValidOrRestoring) := by
  simp [FindNeighborIp6, h, MacAddress.isNone, matcherOfMac]

/-- C2 witness: a concrete routing-locator address whose locator matches no
child or router; the lookup returns none even though the skipped tier-3
scan would have found child 0 via its registered addresses. -/
theorem findNeighborIp6_tier_skip_witness :
    c2Addr.isRoutingLocator = true ∧
    FindNeighborIp6 c2Device c2Addr =
      FindChildOrRouter c2Device
        (matcherOfShort c2Addr.iidLocator StateFilter.kInStateValidOrRestoring) ∧
    FindNeighborIp6 c2Device c2Addr = none ∧
    scanChildrenForIp6 c2Device.childTable c2Addr = some 0 :=
  ⟨rfl, findNeighborIp6_tier_skip c2Device c2Addr rfl, by decide, by decide⟩

/-- C4 counterexample: an FTD (router/leader-capable) device currently in
the child role, where the child/router path would find child 0, yet
`FindNeighbor(matcher)` returns the parent slot without consulting that
path — refuting that on every capable device the child/router tables are
searched first and the parent slots only on failure. -/
theorem findNeighbor_capability_counterexample :
    c4Device.isFtd = true ∧
    FindChildOrRouter c4Device c4Matcher = some (NeighborRef.child 0) ∧
    FindNeighborMatcher c4Device c4Matcher = some NeighborRef.parent := by
  decide

/-- C4 (amended): the child-then-router search runs only when the device is
router/leader-capable AND currently in the router or leader role, with the
parent slots searched on its failure; in every other case (incapable
device, or capable device not currently router/leader) the parent slots
are searched unconditionally. -/
theorem findNeighbor_role_gate (d : Device) (m : AddressMatcher) :
    FindNeighborMatcher d m =
      if d.isFtd && d.role.isRouterOrLeader then
        Option.orElse (FindChildOrRouter d m) (fun _ => FindParentMatcher d m)
      else
        FindParentMatcher d m := by
  cases hf : d.isFtd <;>
    cases hr : d.role.isRouterOrLeader <;>
      cases hc : FindChildOrRouter d m <;>
        simp [FindNeighborMatcher, hf, hr, hc, Option.orElse]

/-- C5: `RouteLookup` returns `OT_ERROR_NO_ROUTE` whenever the underlying
network-data computation succeeds but resolves the next hop to this
device's own RLOC16, and otherwise returns the underlying computation's
result unchanged. -/
theorem routeLookup_self_next_hop (lr : LeaderRouteResult) (myRloc16 : Nat) :
    RouteLookup lr myRloc16 =
      if lr.error = OtError.kNone ∧ lr.rloc16 = myRloc16 then OtError.kNoRoute
      else lr.error := by
  by_cases h1 : lr.error = OtError.kNone <;>
    by_cases h2 : lr.rloc16 = myRloc16 <;>
      simp [RouteLookup, h1, h2]

/-- C6: whatever the parent slots, child table and router table hold,
`FindNeighbor(Mac::ShortAddress)` returns none on the broadcast sentinel
and on the invalid sentinel. -/
theorem findNeighborShort_sentinels (d : Device) :
    FindNeighborShort d kShortAddrBroadcast = none ∧
    FindNeighborShort d kShortAddrInvalid = none := by
  constructor <;> simp [FindNeighborShort, kShortAddrBroadcast, kShortAddrInvalid]

/-- C7: `Up` and `Down` are idempotent — a second `Up` on an already-Up
interface (and a second `Down` on an already-Down interface) performs no
collaborator call, no address change and no notifier signal (empty event
trace) and leaves the state exactly as after the single call; and `Down`
on the freshly constructed (Down) interface is the same no-op. -/
theorem netif_up_down_idempotent (cfg : NetifConfig) (s : ThreadNetifState) :
    netifUp cfg (netifUp cfg s).1 = ((netifUp cfg s).1, []) ∧
    netifDown cfg (netifDown cfg s).1 = ((netifDown cfg s).1, []) ∧
    initialNetifState.mIsUp = false ∧
    netifDown cfg initialNetifState = (initialNetifState, []) := by
  refine ⟨?_, ?_, rfl, ?_⟩
  · cases h : s.mIsUp <;> simp [netifUp, h]
  · cases h : s.mIsUp <;> simp [netifDown, h]
  · simp [netifDown, initialNetifState]

/-- C8: the TMF filter decision is a function of the envelope's address
classification alone — two messages with arbitrary (different) contents but
the same message-info receive the same allow/deny decision. -/
theorem tmfFilter_content_independent (m1 m2 : CoapMessage) (mi : MessageInfo) :
    TmfFilter m1 mi = TmfFilter m2 mi := by
  rfl

/-- C9: when a matcher matches both the parent slot and the
parent-candidate slot, `FindParent(matcher)` returns the parent slot: the
parent slot is checked first and takes precedence. -/
theorem findParent_prefers_parent (d : Device) (m : AddressMatcher)
    (h1 : d.parent.matches m = true)
    (h2 : d.parentCandidate.matches m = true) :
    FindParentMatcher d m = some NeighborRef.parent := by
  simp [FindParentMatcher, h1]

/-- C9 witness: a concrete device whose parent and parent-candidate both
match the matcher; the parent slot is returned. -/
theorem findParent_prefers_parent_witness :
    c9Device.parent.matches c9Matcher = true ∧
    c9Device.parentCandidate.matches c9Matcher = true ∧
    FindParentMatcher c9Device c9Matcher = some NeighborRef.parent :=
  ⟨by decide, by decide,
    findParent_prefers_parent c9Device c9Matcher (by decide) (by decide)⟩

/-- C10: the generic `FindNeighbor(Mac::Address)` overload performs no
broadcast/invalid sentinel check: on a generic address wrapping either
sentinel short address it proceeds straight to the matcher search; on a
concrete device it can therefore return a peer for the wrapped invalid
sentinel where the short-address overload returns none. -/
theorem findNeighborMac_no_sentinel_check :
    (∀ d : Device,
      FindNeighborMac d (MacAddress.short kShortAddrBroadcast) =
        FindNeighborMatcher d
          (matcherOfMac (MacAddress.short kShortAddrBroadcast)
            StateFilter.kInStateValidOrRestoring) ∧
      FindNeighborMac d (MacAddress.short kShortAddrInvalid) =
        FindNeighborMatcher d
          (matcherOfMac (MacAddress.short kShortAddrInvalid)
            StateFilter.kInStateValidOrRestoring)) ∧
    FindNeighborMac c10Device (MacAddress.short kShortAddrInvalid) =
      some (NeighborRef.child 0) ∧
    FindNeighborShort c10Device kShortAddrInvalid = none :=
  ⟨fun _ => ⟨rfl, rfl⟩, by decide, by decide⟩

/-! ## Enumeration lemmas for `GetNextNeighborInfo` -/

/-- The child-phase loop finds nothing iff the walked suffix holds no child
in state Valid. -/
theorem childSearchAux_none_iff (l : List Child) :
    ∀ i : Nat, childSearchAux l i = none ↔
      l.filter (fun c => c.toNeighbor.state.isValid) = [] := by
  induction l with
  | nil => intro i; simp [childSearchAux]
  | cons c rest ih =>
    intro i
    by_cases h : c.toNeighbor.state.isValid = true <;>
      simp [childSearchAux, h, ih (i + 1)]

/-- When the child-phase loop walked from slot `i` over the suffix `l`
finds the Valid child `c` at slot `j`, then `c` heads the Valid children of
`l`, and the Valid children of the suffix past slot `j` are exactly the
rest of them. -/
theorem childSearchAux_some (l : List Child) :
    ∀ i j c, childSearchAux l i = some (j, c) →
      i ≤ j ∧ c.toNeighbor.state.isValid = true ∧
        l.filter (fun x => x.toNeighbor.state.isValid) =
          c :: (l.drop (j + 1 - i)).filter (fun x => x.toNeighbor.state.isValid) := by
  induction l with
  | nil => intro i j c h; simp [childSearchAux] at h
  | cons x rest ih =>
    intro i j c h
    by_cases hv : x.toNeighbor.state.isValid = true
    · rw [childSearchAux, if_pos hv] at h
      obtain ⟨hj, hc⟩ := Prod.mk.injEq .. ▸ Option.some.injEq .. ▸ h
      subst hj; subst hc
      refine ⟨Nat.le_refl i, hv, ?_⟩
      have h1 : i + 1 - i = 1 := by omega
      simp [h1, hv]
    · rw [childSearchAux, if_neg hv] at h
      obtain ⟨hij, hcv, hrest⟩ := ih (i + 1) j c h
      refine ⟨by omega, hcv, ?_⟩
      have h1 : j + 1 - i = (j - i) + 1 := by omega
      have h2 : j + 1 - (i + 1) = j - i := by omega
      rw [h1]
      simp [hv, List.drop_succ_cons, h2 ▸ hrest]

/-- The router-phase loop finds nothing iff no allocated router with id in
the walked range is in state Valid. -/
theorem routerSearchAux_none_iff (rt : List (Option Router)) :
    ∀ fuel i, routerSearchAux rt fuel i = none ↔
      validRouterInfosAux rt fuel i = [] := by
  intro fuel
  induction fuel with
  | zero => intro i; simp [routerSearchAux, validRouterInfosAux]
  | succ fuel ih =>
    intro i
    cases hg : getRouter rt i with
    | none => simp [routerSearchAux, validRouterInfosAux, hg, ih (i + 1)]
    | some r =>
      by_cases hv : r.state.isValid = true <;>
        simp [routerSearchAux, validRouterInfosAux, hg, hv, ih (i + 1)]

/-- When the router-phase loop walked from id `i` with the given fuel finds
the Valid router `r` at id `j`, then `r`'s snapshot heads the pending
router snapshots, and the snapshots past id `j` are exactly the rest. -/
theorem routerSearchAux_some (rt : List (Option Router)) :
    ∀ fuel i j r, routerSearchAux rt fuel i = some (j, r) →
      i ≤ j ∧ r.state.isValid = true ∧
        validRouterInfosAux rt fuel i =
          infoOfRouter r :: validRouterInfosAux rt (fuel + i - (j + 1)) (j + 1) := by
  intro fuel
  induction fuel with
  | zero => intro i j r h; simp [routerSearchAux] at h
  | succ fuel ih =>
    intro i j r h
    cases hg : getRouter rt i with
    | none =>
      have h' : routerSearchAux rt fuel (i + 1) = some (j, r) := by
        simpa [routerSearchAux, hg] using h
      obtain ⟨hij, hrv, hrest⟩ := ih (i + 1) j r h'
      refine ⟨by omega, hrv, ?_⟩
      have h2 : fuel + 1 + i - (j + 1) = fuel + (i + 1) - (j + 1) := by omega
      simp [validRouterInfosAux, hg, h2 ▸ hrest]
    | some q =>
      by_cases hv : q.state.isValid = true
      · simp only [routerSearchAux, hg, if_pos hv, Option.some.injEq,
          Prod.mk.injEq] at h
        obtain ⟨rfl, rfl⟩ := h
        refine ⟨Nat.le_refl i, hv, ?_⟩
        have h2 : fuel + 1 + i - (i + 1) = fuel := by omega
        simp [validRouterInfosAux, hg, hv, h2]
      · have h' : routerSearchAux rt fuel (i + 1) = some (j, r) := by
          simpa [routerSearchAux, hg, hv] using h
        obtain ⟨hij, hrv, hrest⟩ := ih (i + 1) j r h'
        refine ⟨by omega, hrv, ?_⟩
        have h2 : fuel + 1 + i - (j + 1) = fuel + (i + 1) - (j + 1) := by omega
        simp [validRouterInfosAux, hg, hv, h2 ▸ hrest]

/-- A call with nothing pending reports not-found and leaves nothing
pending at the updated iterator (the terminal value is absorbing). -/
theorem getNext_pending_nil (d : Device) (it : Int)
    (h : pendingInfos d it = []) :
    (GetNextNeighborInfo d it).1 = none ∧
      pendingInfos d (GetNextNeighborInfo d it).2 = [] := by
  by_cases h0 : 0 ≤ it
  · rw [pendingInfos, if_pos h0, List.append_eq_nil] at h
    obtain ⟨hch, hrt⟩ := h
    have hcs : childSearchAux (d.childTable.drop it.toNat) it.toNat = none := by
      rw [childSearchAux_none_iff]
      simpa [validChildInfos] using hch
    have hrs : routerSearch d.routerTable 0 = none := by
      rw [routerSearch, routerSearchAux_none_iff]
      simpa [validRouterInfosFrom] using hrt
    have hstep : GetNextNeighborInfo d it = (none, -((kMaxRouterId : Int) + 1)) := by
      simp [GetNextNeighborInfo, h0, hcs, hrs]
    rw [hstep]
    refine ⟨rfl, ?_⟩
    have hneg : ¬ (0 : Int) ≤ -((kMaxRouterId : Int) + 1) := by omega
    rw [pendingInfos, if_neg hneg]
    have htn : (- -((kMaxRouterId : Int) + 1)).toNat = kMaxRouterId + 1 := by omega
    rw [htn, validRouterInfosFrom]
    have hfuel : kMaxRouterId + 1 - (kMaxRouterId + 1) = 0 := by omega
    rw [hfuel]
    rfl
  · rw [pendingInfos, if_neg h0] at h
    have hrs : routerSearch d.routerTable (-it).toNat = none := by
      rw [routerSearch, routerSearchAux_none_iff]
      simpa [validRouterInfosFrom] using h
    have hstep : GetNextNeighborInfo d it =
        (none, -(Int.ofNat (max (-it).toNat (kMaxRouterId + 1)))) := by
      simp [GetNextNeighborInfo, h0, hrs]
    rw [hstep]
    refine ⟨rfl, ?_⟩
    have hm : kMaxRouterId + 1 ≤ max (-it).toNat (kMaxRouterId + 1) :=
      Nat.le_max_right ..
    have hm2 : (1 : Int) ≤ Int.ofNat (max (-it).toNat (kMaxRouterId + 1)) := by
      have hm1 : 1 ≤ max (-it).toNat (kMaxRouterId + 1) := by omega
      exact Int.ofNat_le.mpr hm1
    have hneg : ¬ (0 : Int) ≤ -(Int.ofNat (max (-it).toNat (kMaxRouterId + 1))) := by
      omega
    rw [pendingInfos, if_neg hneg]
    have htn : (- -(Int.ofNat (max (-it).toNat (kMaxRouterId + 1)))).toNat =
        max (-it).toNat (kMaxRouterId + 1) := by
      rw [neg_neg]
      exact Int.toNat_ofNat _
    rw [htn, validRouterInfosFrom]
    have hfuel : kMaxRouterId + 1 - max (-it).toNat (kMaxRouterId + 1) = 0 := by
      omega
    rw [hfuel]
    rfl

/-- A call with snapshot `x` pending first delivers exactly `x` and leaves
exactly the remaining snapshots pending at the updated iterator. -/
theorem getNext_pending_cons (d : Device) (it : Int) (x : NeighborInfo)
    (rest : List NeighborInfo) (h : pendingInfos d it = x :: rest) :
    (GetNextNeighborInfo d it).1 = some x ∧
      pendingInfos d (GetNextNeighborInfo d it).2 = rest := by
  by_cases h0 : 0 ≤ it
  · rw [pendingInfos, if_pos h0] at h
    cases hcs : childSearchAux (d.childTable.drop it.toNat) it.toNat with
    | some jc =>
      obtain ⟨j, c⟩ := jc
      obtain ⟨hij, hcv, hsplit⟩ :=
        childSearchAux_some (d.childTable.drop it.toNat) it.toNat j c hcs
      have hdd : (d.childTable.drop it.toNat).drop (j + 1 - it.toNat) =
          d.childTable.drop (j + 1) := by
        rw [List.drop_drop]
        congr 1
        omega
      rw [hdd] at hsplit
      have hpend : validChildInfos (d.childTable.drop it.toNat) =
          infoOfChild c :: validChildInfos (d.childTable.drop (j + 1)) := by
        rw [validChildInfos, hsplit]
        rfl
      rw [hpend, List.cons_append] at h
      injection h with hx hrest
      have hstep : GetNextNeighborInfo d it = (some (infoOfChild c), (j : Int) + 1) := by
        simp [GetNextNeighborInfo, h0, hcs]
      rw [hstep]
      refine ⟨by rw [hx], ?_⟩
      have hpos : (0 : Int) ≤ (j : Int) + 1 := by omega
      rw [pendingInfos, if_pos hpos]
      have htn : ((j : Int) + 1).toNat = j + 1 := by omega
      rw [htn, hrest]
    | none =>
      have hch : validChildInfos (d.childTable.drop it.toNat) = [] := by
        rw [validChildInfos, (childSearchAux_none_iff _ it.toNat).mp hcs]
        rfl
      rw [hch, List.nil_append] at h
      cases hrs : routerSearch d.routerTable 0 with
      | none =>
        exfalso
        rw [routerSearch, routerSearchAux_none_iff] at hrs
        rw [validRouterInfosFrom] at h
        rw [h] at hrs
        exact List.cons_ne_nil _ _ hrs
      | some jr =>
        obtain ⟨j, r⟩ := jr
        obtain ⟨hij, hrv, hsplit⟩ :=
          routerSearchAux_some d.routerTable (kMaxRouterId + 1 - 0) 0 j r hrs
        have hfuel : kMaxRouterId + 1 - 0 + 0 - (j + 1) =
            kMaxRouterId + 1 - (j + 1) := by omega
        rw [hfuel] at hsplit
        have hpend : validRouterInfosFrom d.routerTable 0 =
            infoOfRouter r :: validRouterInfosFrom d.routerTable (j + 1) := by
          rw [validRouterInfosFrom, validRouterInfosFrom]
          exact hsplit
        rw [hpend] at h
        injection h with hx hrest
        have hstep : GetNextNeighborInfo d it =
            (some (infoOfRouter r), -((j : Int) + 1)) := by
          simp [GetNextNeighborInfo, h0, hcs, hrs]
        rw [hstep]
        refine ⟨by rw [hx], ?_⟩
        have hneg : ¬ (0 : Int) ≤ -((j : Int) + 1) := by omega
        rw [pendingInfos, if_neg hneg]
        have htn : (- -((j : Int) + 1)).toNat = j + 1 := by omega
        rw [htn, hrest]
  · rw [pendingInfos, if_neg h0] at h
    cases hrs : routerSearch d.routerTable (-it).toNat with
    | none =>
      exfalso
      rw [routerSearch, routerSearchAux_none_iff] at hrs
      rw [validRouterInfosFrom] at h
      rw [h] at hrs
      exact List.cons_ne_nil _ _ hrs
    | some jr =>
      obtain ⟨j, r⟩ := jr
      obtain ⟨hij, hrv, hsplit⟩ :=
        routerSearchAux_some d.routerTable (kMaxRouterId + 1 - (-it).toNat)
          (-it).toNat j r hrs
      have hlow : (-it).toNat ≤ kMaxRouterId := by
        by_contra hgt
        have hz : kMaxRouterId + 1 - (-it).toNat = 0 := by omega
        rw [routerSearch, hz] at hrs
        simp [routerSearchAux] at hrs
      have hfuel : kMaxRouterId + 1 - (-it).toNat + (-it).toNat - (j + 1) =
          kMaxRouterId + 1 - (j + 1) := by omega
      rw [hfuel] at hsplit
      have hpend : validRouterInfosFrom d.routerTable (-it).toNat =
          infoOfRouter r :: validRouterInfosFrom d.routerTable (j + 1) := by
        rw [validRouterInfosFrom, validRouterInfosFrom]
        exact hsplit
      rw [hpend] at h
      injection h with hx hrest
      have hstep : GetNextNeighborInfo d it =
          (some (infoOfRouter r), -((j : Int) + 1)) := by
        simp [GetNextNeighborInfo, h0, hrs]
      rw [hstep]
      refine ⟨by rw [hx], ?_⟩
      have hneg : ¬ (0 : Int) ≤ -((j : Int) + 1) := by omega
      rw [pendingInfos, if_neg hneg]
      have htn : (- -((j : Int) + 1)).toNat = j + 1 := by omega
      rw [htn, hrest]

/-- Threaded enumeration: `n` successive calls starting at any iterator
value deliver the pending snapshots in order, then report not-found on
every further call. -/
theorem enumOutputs_eq (d : Device) :
    ∀ (n : Nat) (it : Int),
      enumOutputs d it n =
        ((pendingInfos d it).take n).map some ++
          List.replicate (n - (pendingInfos d it).length) none := by
  intro n
  induction n with
  | zero => intro it; simp [enumOutputs]
  | succ n ih =>
    intro it
    cases hp : pendingInfos d it with
    | nil =>
      obtain ⟨h1, h2⟩ := getNext_pending_nil d it hp
      rw [enumOutputs, h1, ih _, h2]
      simp [List.replicate_succ]
    | cons x rest =>
      obtain ⟨h1, h2⟩ := getNext_pending_cons d it x rest hp
      rw [enumOutputs, h1, ih _, h2]
      simp [Nat.succ_sub_succ]

/-- C3: starting `GetNextNeighborInfo` from the initial iterator value 0
and calling it repeatedly (always passing back the returned iterator, never
reinitializing) yields every state-Valid child exactly once in ascending
child-table index order, then every state-Valid router exactly once in
ascending router-id order, and after both phases are exhausted every
further call reports not-found: of `n` calls, the first ones deliver
exactly the Valid-children snapshots followed by the Valid-router
snapshots, and all remaining calls return none. -/
theorem getNextNeighborInfo_enumeration (d : Device) (n : Nat) :
    enumOutputs d 0 n =
      ((validChildInfos d.childTable ++
          validRouterInfosFrom d.routerTable 0).take n).map some ++
        List.replicate
          (n - (validChildInfos d.childTable ++
            validRouterInfosFrom d.routerTable 0).length) none := by
  have h := enumOutputs_eq d n 0
  simpa [pendingInfos] using h

end OpenThread
